import Mathlib

/-!
Verification development for the `perfume` browser frontend
(`src/frontend/perfume.js` and its sibling variant `src/unnamed/part_000`).

The JavaScript module keeps its session state in module-level mutable
variables (`SESSION_ID`, `SESSION_TOKEN`, `OFFER_SDP`, `pc`) and wires DOM
event handlers to backend fetch calls.  We embed each handler as a pure
function from an environment (the outcomes of the network calls and browser
API calls the handler performs) and a pre-state to a post-state together
with a trace of observable effects (log lines, issued network requests,
peer-connection lifecycle events).

JavaScript conventions mirrored here:
* a possibly-missing string field of a JSON body is an `Option String`
  (`none` = the field is absent / not a string);
* JS truthiness of such a field (`!j.offer_sdp`) is `truthy`: absent and
  the empty string are falsy;
* `(j && j.response ? j.response : "").trim()` is `jsTrim (o.getD "")`;
* a fetch that throws (network error) is `none` in the environment, a fetch
  that returns is `some` of the HTTP status together with the parsed body
  (a failed `r.json().catch(()=>({}))` parse yields a body whose fields are
  all absent).
-/

namespace Perfume

/-- JS truthiness of a possibly-missing string field: `undefined`/missing
and `""` are falsy, every other string is truthy. -/
def truthy : Option String → Bool
  | none => false
  | some s => s ≠ ""

/-- JS `String.prototype.trim`: strips leading and trailing whitespace.
Implemented on the character list so that it evaluates inside the
kernel. -/
def jsTrim (s : String) : String :=
  ⟨((s.data.dropWhile Char.isWhitespace).reverse.dropWhile
      Char.isWhitespace).reverse⟩

/-- Value appended to a `FormData` for a possibly-undefined JS string
variable: JS stringifies `undefined` to `"undefined"`. -/
def optStr : Option String → String
  | none => "undefined"
  | some s => s

/-- Observable effects of a handler run: log lines written by `flog`
(either `INFO` or `ERROR` level) and the network requests and
peer-connection lifecycle actions the handler performs, in program order. -/
inductive Ev
  | logInfo (area msg : String)
  | logError (area msg : String)
  | fetchStartSession
  | fetchHeygenStart (sid tok sdp : String)
  | fetchStopSession
  | fetchSendTask (sid tok text : String)
  | fetchChat (text : String)
  | fetchExplain (name : String)
  | fetchVoicechat
  | fetchTranscribe
  | newPC (id : Nat)
  | closePC (id : Nat)
  deriving Repr, DecidableEq

/-- The module-level mutable state of `perfume.js`, plus the DOM cells the
handlers write (`viewerStatus` text, `editBox` value, avatar name, the
placeholder and audio-gate display styles).  Peer connections are given
fresh numeric identities (`nextPC`); `openPCs` records which created
connections have not been closed, so that "at most one connection is open"
is a provable invariant rather than a modelling assumption. -/
structure St where
  SESSION_ID    : Option String
  SESSION_TOKEN : Option String
  OFFER_SDP     : Option String
  pc            : Option Nat
  nextPC        : Nat
  openPCs       : List Nat
  status        : String
  editBox       : String
  avatarName    : String
  placeholder   : String
  gateDisplay   : String
  deriving Repr, DecidableEq

/-- Initial module state: all session variables `null`, no peer
connection, empty edit box. -/
def St.init : St :=
  { SESSION_ID := none, SESSION_TOKEN := none, OFFER_SDP := none
    pc := none, nextPC := 0, openPCs := []
    status := "", editBox := "", avatarName := "—"
    placeholder := "", gateDisplay := "none" }

/-- Parsed JSON body of the `/api/start-session` response, with the HTTP
status.  Absent fields are `none`; a body that failed to parse is modelled
by all fields `none`. -/
structure StartResp where
  http          : Nat
  offer_sdp     : Option String
  session_id    : Option String
  session_token : Option String
  avatar_name   : Option String
  rtc_config    : Option String
  deriving Repr, DecidableEq

/-- Environment of one `startSession` run: the outcome of the
`/api/start-session` fetch (`none` = the fetch threw), whether each of the
three local WebRTC operations succeeds, when (if ever) ICE gathering
completes, the local SDP after gathering, and the `/api/heygen/start`
outcome (`none` = threw, `some h` = returned with HTTP status `h`). -/
structure StartEnv where
  startResult    : Option StartResp
  setRemoteOk    : Bool
  createAnswerOk : Bool
  setLocalOk     : Bool
  iceCompleteAt  : Option Nat
  localSdp       : String
  heygenResult   : Option Nat
  deriving Repr, DecidableEq

/-- The start-session guard of the source,
`r.status >= 400 || !j.offer_sdp`. -/
def startGuard (j : StartResp) : Bool :=
  400 ≤ j.http || !(truthy j.offer_sdp)

/-- Does the first phase of `startSession` fail?  Mirrors
`if (r.status >= 400 || !j.offer_sdp) throw ...` together with the case
where the fetch itself throws. -/
def startPhaseFails (env : StartEnv) : Bool :=
  match env.startResult with
  | none => true
  | some j => startGuard j

/-- Does the WebRTC/heygen phase of `startSession` fail (given that the
first phase succeeded)?  Any of the three local description operations
throwing, the `/api/heygen/start` fetch throwing, or that fetch returning
a status `>= 400`. -/
def webrtcPhaseFails (env : StartEnv) : Bool :=
  !env.setRemoteOk || !env.createAnswerOk || !env.setLocalOk ||
    (match env.heygenResult with
     | none => true
     | some h => 400 ≤ h)

/-- The WebRTC/heygen phase of `startSession` (the second `try` block of
the source), entered after the session variables were assigned from the
start-session response.  Closes the prior peer connection if one exists,
creates the new one, applies the remote offer, creates and sets the local
answer, waits for ICE gathering, and posts the answer to
`/api/heygen/start`.  On any failure the `catch` logs the error, sets the
status to `"init error (webrtc)"` and (in the `part_000` variant) restores
the placeholder — and nothing else: the session variables and the newly
created peer connection are left as they are. -/
def negotiate (env : StartEnv) (st0 : St) : St × List Ev :=
  let closed : St × List Ev :=
    match st0.pc with
    | some i => ({ st0 with openPCs := st0.openPCs.erase i }, [Ev.closePC i])
    | none => (st0, [])
  let n := closed.1.nextPC
  let st1 : St :=
    { closed.1 with pc := some n, nextPC := n + 1
                    openPCs := closed.1.openPCs ++ [n] }
  let evs0 := closed.2 ++ [Ev.newPC n]
  let st2 := { st1 with status := "applying offer…" }
  if !env.setRemoteOk then
    ({ st2 with status := "init error (webrtc)", placeholder := "" },
     evs0 ++ [Ev.logError "viewer" "webrtc/start error"])
  else
    let st3 := { st2 with status := "creating answer…" }
    if !env.createAnswerOk || !env.setLocalOk then
      ({ st3 with status := "init error (webrtc)", placeholder := "" },
       evs0 ++ [Ev.logError "viewer" "webrtc/start error"])
    else
      let st4 := { st3 with status := "starting on HeyGen…" }
      let evs1 := evs0 ++
        [Ev.fetchHeygenStart (optStr st4.SESSION_ID)
          (optStr st4.SESSION_TOKEN) env.localSdp]
      match env.heygenResult with
      | none =>
        ({ st4 with status := "init error (webrtc)", placeholder := "" },
         evs1 ++ [Ev.logError "viewer" "webrtc/start error"])
      | some h =>
        let evs2 := evs1 ++ [Ev.logInfo "viewer" "/api/heygen/start response"]
        if 400 ≤ h then
          ({ st4 with status := "init error (webrtc)", placeholder := "" },
           evs2 ++ [Ev.logError "viewer" "webrtc/start error"])
        else
          ({ st4 with status := "waiting for media…", gateDisplay := "flex" },
           evs2)

/-- `startSession` from `src/unnamed/part_000` (identical to the
`src/frontend/perfume.js` version except that the latter has no
`avatarPlaceholder` element, hence no `placeholder` writes).  Hides the
placeholder, posts `/api/start-session`; on a thrown fetch, a status
`>= 400` or a falsy `offer_sdp` it logs, sets the
`"init error (start-session)"` status, restores the placeholder and
returns without touching the session variables.  Otherwise it assigns
`SESSION_ID`/`SESSION_TOKEN`/`OFFER_SDP` from the response and runs the
WebRTC/heygen phase. -/
def startSession (env : StartEnv) (st : St) : St × List Ev :=
  let st0 := { st with placeholder := "none", status := "requesting viewer params…" }
  let evs0 := [Ev.logInfo "viewer" "Start button pressed", Ev.fetchStartSession]
  match env.startResult with
  | none =>
    ({ st0 with status := "init error (start-session)", placeholder := "" },
     evs0 ++ [Ev.logError "viewer" "start-session failed"])
  | some j =>
    let evs1 := evs0 ++ [Ev.logInfo "viewer" "/api/start-session response"]
    if startGuard j then
      ({ st0 with status := "init error (start-session)", placeholder := "" },
       evs1 ++ [Ev.logError "viewer" "start-session failed"])
    else
      let st1 : St :=
        { st0 with
            avatarName := if truthy j.avatar_name then j.avatar_name.getD "" else "—"
            SESSION_ID := j.session_id
            SESSION_TOKEN := j.session_token
            OFFER_SDP := j.offer_sdp }
      let r := negotiate env st1
      (r.1, evs1 ++ r.2)

/-- Environment of one `stopSession` run: the outcome of the
`/api/stop-session` fetch (`none` = the fetch threw, `some h` = returned
with HTTP status `h`). -/
structure StopEnv where
  stopResult : Option Nat
  deriving Repr, DecidableEq

/-- `stopSession`: posts `/api/stop-session` inside a `try` whose `catch`
only logs (failures are not propagated); then closes the peer connection
if one is held and nulls `pc`, restores the placeholder (`part_000`
variant) and sets the status to `"stopped."`.  The session identifier
variables are not written. -/
def stopSession (env : StopEnv) (st : St) : St × List Ev :=
  let evs0 := [Ev.logInfo "viewer" "Stop button pressed", Ev.fetchStopSession] ++
    (match env.stopResult with
     | some _ => [Ev.logInfo "viewer" "/api/stop-session response"]
     | none => [Ev.logError "viewer" "stop-session error"])
  let closed : St × List Ev :=
    match st.pc with
    | some i => ({ st with pc := none, openPCs := st.openPCs.erase i },
                 evs0 ++ [Ev.closePC i])
    | none => (st, evs0)
  ({ closed.1 with placeholder := "", status := "stopped." }, closed.2)

/-- Environment for a handler that performs one fetch whose JSON body
carries one optional string field: `none` = the fetch threw, otherwise the
HTTP status and the field (`none` = absent / not a string). -/
structure RespEnv where
  result : Option (Nat × Option String)
  deriving Repr, DecidableEq

/-- The `sendBtn` click handler (identical in both source variants):
trims the edit box; returns immediately (before any `flog` or fetch) when
the trimmed text is empty; returns with the `"Start session first."`
status (still before any network call) when `SESSION_ID && SESSION_TOKEN`
is falsy; otherwise logs and posts the trimmed text to `/api/send-task`.
`env` is the `/api/send-task` outcome, used only for the response log. -/
def sendHandler (env : RespEnv) (st : St) : St × List Ev :=
  let text := jsTrim st.editBox
  if text = "" then (st, [])
  else if !(truthy st.SESSION_ID && truthy st.SESSION_TOKEN) then
    ({ st with status := "Start session first." }, [])
  else
    let evs := [Ev.logInfo "viewer" "Send to avatar clicked",
      Ev.fetchSendTask (optStr st.SESSION_ID) (optStr st.SESSION_TOKEN) text]
    match env.result with
    | some _ => (st, evs ++ [Ev.logInfo "viewer" "/api/send-task response"])
    | none => (st, evs)

/-- The `gptBtn` click handler from `src/frontend/perfume.js`: posts the
trimmed edit text (or `"Hello"` when it is empty) to `/api/chat`; on a
thrown fetch logs and sets `"OpenAI error"`; on a status `>= 400` sets
`"OpenAI error (see debug box)"` and returns; otherwise, when the trimmed
reply is non-empty, writes it into the edit box and — if a session is
active — fire-and-forgets it to `/api/send-task`; finally sets
`"Ready."`. -/
def gptHandler (env : RespEnv) (st : St) : St × List Ev :=
  let text := jsTrim st.editBox
  let evs0 := [Ev.logInfo "chatgpt"
    (if text = "" then "Send to ChatGPT pressed (empty text)" else "Send to ChatGPT pressed")]
  let st0 := { st with status := "Sending to ChatGPT…" }
  let submitted := if text = "" then "Hello" else text
  match env.result with
  | none =>
    ({ st0 with status := "OpenAI error" },
     evs0 ++ [Ev.fetchChat submitted, Ev.logError "chatgpt" "error"])
  | some (http, jresp) =>
    let evs1 := evs0 ++ [Ev.fetchChat submitted, Ev.logInfo "chatgpt" "/api/chat response"]
    if 400 ≤ http then
      ({ st0 with status := "OpenAI error (see debug box)" }, evs1)
    else
      let reply := jsTrim (jresp.getD "")
      if reply = "" then ({ st0 with status := "Ready." }, evs1)
      else
        let st1 := { st0 with editBox := reply, status := "Ready." }
        if truthy st.SESSION_ID && truthy st.SESSION_TOKEN then
          ({ st1 with status := "Ready." },
           evs1 ++ [Ev.fetchSendTask (optStr st.SESSION_ID)
             (optStr st.SESSION_TOKEN) reply])
        else ({ st1 with status := "Ready." }, evs1)

/-- The `explainPerfume` helper from `src/frontend/perfume.js`: trims the
tile name and is a complete no-op when it is empty; otherwise writes the
name into the edit box, fire-and-forgets it to `/api/send-task` when a
session is active, posts it to `/api/perfume-explain`, and handles the
reply exactly as the chat handler does (status `>= 400` aborts with
`"OpenAI error (see debug)"`; a non-empty trimmed reply replaces the edit
box and is forwarded to the session; status ends `"Ready."`). -/
def explainPerfume (env : RespEnv) (name : String) (st : St) : St × List Ev :=
  let nm := jsTrim name
  if nm = "" then (st, [])
  else
    let st0 := { st with editBox := nm }
    let evs0 := [Ev.logInfo "tiles" "tile pressed"] ++
      (if truthy st.SESSION_ID && truthy st.SESSION_TOKEN then
        [Ev.fetchSendTask (optStr st.SESSION_ID) (optStr st.SESSION_TOKEN) nm]
       else [])
    let st1 := { st0 with status := "Getting perfume details…" }
    match env.result with
    | none =>
      ({ st1 with status := "OpenAI error" },
       evs0 ++ [Ev.fetchExplain nm, Ev.logError "tiles" "perfume-explain error"])
    | some (http, jresp) =>
      let evs1 := evs0 ++
        [Ev.fetchExplain nm, Ev.logInfo "tiles" "/api/perfume-explain response"]
      if 400 ≤ http then
        ({ st1 with status := "OpenAI error (see debug)" }, evs1)
      else
        let reply := jsTrim (jresp.getD "")
        if reply = "" then ({ st1 with status := "Ready." }, evs1)
        else
          let st2 := { st1 with editBox := reply, status := "Ready." }
          if truthy st.SESSION_ID && truthy st.SESSION_TOKEN then
            (st2, evs1 ++ [Ev.fetchSendTask (optStr st.SESSION_ID)
              (optStr st.SESSION_TOKEN) reply])
          else (st2, evs1)

/-- The recorder-facing slice of the DOM and module state touched by the
`mediaRecorder.onstop` handler: the edit box, the status line, whether the
captured stream tracks have been stopped (microphone released), the
`mediaRecorder` variable (`true` = non-null) and the mic button UI. -/
structure MicState where
  editBox         : String
  status          : String
  tracksStopped   : Bool
  mediaRecorder   : Bool
  micBtnRecording : Bool
  micBtnLabel     : String
  deriving Repr, DecidableEq

/-- The `mediaRecorder.onstop` handler from `src/frontend/perfume.js`:
the `try` uploads the flushed blob to `/api/voicechat`; when the reply has
a string `text` field the edit box becomes its trimmed value and the
status `"Ready."`, otherwise the status is
`"Voicechat returned no text."`; a thrown step logs and sets
`"Voicechat error"`.  The `finally` always stops the stream tracks,
nulls `mediaRecorder` and resets the mic button. -/
def onstopVoicechat (env : RespEnv) (st : MicState) : MicState × List Ev :=
  let body : MicState × List Ev :=
    match env.result with
    | none =>
      ({ st with status := "Voicechat error" },
       [Ev.fetchVoicechat, Ev.logError "mic" "voicechat error"])
    | some (_http, jtext) =>
      let evs := [Ev.fetchVoicechat, Ev.logInfo "mic" "/api/voicechat response"]
      match jtext with
      | some t => ({ st with editBox := jsTrim t, status := "Ready." }, evs)
      | none => ({ st with status := "Voicechat returned no text." }, evs)
  ({ body.1 with tracksStopped := true, mediaRecorder := false
                 micBtnRecording := false, micBtnLabel := "🎙️ Start Recording" },
   body.2)

/-- The `mediaRecorder.onstop` handler from `src/unnamed/part_000`: the
`try` uploads the blob to `/api/transcribe`; when the reply has a truthy
`text` field the edit box becomes that text (untrimmed); the status is
then `"Ready."` in every returned case; a thrown step sets a
`"Transcription error: …"` status.  The `finally` always stops the stream
tracks, nulls `mediaRecorder` and resets the mic button. -/
def onstopTranscribe (env : RespEnv) (st : MicState) : MicState × List Ev :=
  let body : MicState × List Ev :=
    match env.result with
    | none => ({ st with status := "Transcription error: …" }, [Ev.fetchTranscribe])
    | some (_http, jtext) =>
      let evs := [Ev.fetchTranscribe, Ev.logInfo "mic" "/api/transcribe response"]
      let st1 := if truthy jtext then { st with editBox := jtext.getD "" } else st
      ({ st1 with status := "Ready." }, evs)
  ({ body.1 with tracksStopped := true, mediaRecorder := false
                 micBtnRecording := false, micBtnLabel := "🎙️ Rec" },
   body.2)

/-- Scan of the ICE-gathering wait from instant `t`: the promise resolves
at the first instant `< 1500` at which the gathering state is
`"complete"`, and at `1500` the `setTimeout(res, 1500)` resolves it
regardless. -/
def waitFrom (complete : Nat → Bool) (t : Nat) : Nat :=
  if 1500 ≤ t then 1500
  else if complete t then t else waitFrom complete (t + 1)
termination_by 1500 - t
decreasing_by omega

/-- Resolution time of the ICE-gathering wait promise in `startSession`.
The executor resolves immediately when `pc.iceGatheringState` is already
`"complete"` (instant `0`); otherwise it resolves at the first instant at
which an `icegatheringstatechange` event finds the state `"complete"`, or
at `1500` via the `setTimeout`, whichever comes first.  `complete t` says
whether the gathering state is `"complete"` at instant `t`. -/
def iceResolveTime (complete : Nat → Bool) : Nat := waitFrom complete 0

/-- A user action on the session controller: one click of the start, stop,
send, ChatGPT or tile button, together with the environment (network
outcomes) of the resulting handler run. -/
inductive Act
  | start (env : StartEnv)
  | stop (env : StopEnv)
  | send (env : RespEnv)
  | gpt (env : RespEnv)
  | explain (env : RespEnv) (name : String)

/-- Run one user action from a module state. -/
def runAct : Act → St → St × List Ev
  | Act.start env, st => startSession env st
  | Act.stop env, st => stopSession env st
  | Act.send env, st => sendHandler env st
  | Act.gpt env, st => gptHandler env st
  | Act.explain env nm, st => explainPerfume env nm st

/-- Run a sequence of user actions from a module state. -/
def runActs : List Act → St → St
  | [], st => st
  | a :: as, st => runActs as (runAct a st).1

/-- Connection bookkeeping invariant: the set of open peer connections is
exactly the one held in the `pc` variable (empty when `pc` is null). -/
def pcInv (st : St) : Prop :=
  match st.pc with
  | none => st.openPCs = []
  | some i => st.openPCs = [i]

/-- Concrete run: the start-session response is good (`s1`/`t1` and an
offer), the local WebRTC steps succeed, but `/api/heygen/start` answers
HTTP 500. -/
def c1env : StartEnv :=
  { startResult := some
      { http := 200, offer_sdp := some "offer",
        session_id := some "s1", session_token := some "t1",
        avatar_name := some "June", rtc_config := none },
    setRemoteOk := true, createAnswerOk := true, setLocalOk := true,
    iceCompleteAt := some 10, localSdp := "answer", heygenResult := some 500 }

/-- Concrete module state holding an active session `s1`/`t1` with an open
peer connection `0`. -/
def c2st : St :=
  { St.init with SESSION_ID := some "s1", SESSION_TOKEN := some "t1"
                 OFFER_SDP := some "offer", pc := some 0, nextPC := 1
                 openPCs := [0], status := "waiting for media…" }

/-- Concrete run: `/api/start-session` answers HTTP 500 (with an offer in
the body, which the guard ignores once the status is a failure). -/
def c3env : StartEnv :=
  { startResult := some
      { http := 500, offer_sdp := some "offer",
        session_id := some "s2", session_token := some "t2",
        avatar_name := none, rtc_config := none },
    setRemoteOk := true, createAnswerOk := true, setLocalOk := true,
    iceCompleteAt := none, localSdp := "answer", heygenResult := some 200 }

/-- Concrete fully successful start run. -/
def c4env : StartEnv :=
  { startResult := some
      { http := 200, offer_sdp := some "offer",
        session_id := some "s3", session_token := some "t3",
        avatar_name := some "June", rtc_config := none },
    setRemoteOk := true, createAnswerOk := true, setLocalOk := true,
    iceCompleteAt := some 3, localSdp := "answer", heygenResult := some 200 }

/-- Concrete module state holding an open peer connection `5`. -/
def c4st : St :=
  { St.init with SESSION_ID := some "s0", SESSION_TOKEN := some "t0"
                 pc := some 5, nextPC := 6, openPCs := [5] }

/-- Concrete module state: active session and an edit box holding
`" hi "` (whitespace around the text). -/
def c6st : St :=
  { St.init with SESSION_ID := some "s1", SESSION_TOKEN := some "t1"
                 editBox := " hi " }

/-- Concrete module state: active session and edit box `"Hello"`. -/
def c7st : St :=
  { St.init with SESSION_ID := some "s1", SESSION_TOKEN := some "t1"
                 editBox := "Hello" }

/-- Concrete recorder state right before the `onstop` handler runs. -/
def c8mic : MicState :=
  { editBox := "previous text", status := "Listening… press again to stop"
    tracksStopped := false, mediaRecorder := true
    micBtnRecording := true, micBtnLabel := "⏹ End Recording" }

/-- Concrete module state: active session and a non-empty edit box, used
to exercise the empty-reply frame condition. -/
def c10st : St :=
  { St.init with SESSION_ID := some "s1", SESSION_TOKEN := some "t1"
                 editBox := "previous text" }

theorem negotiate_fail (env : StartEnv) (st : St)
    (hwf : webrtcPhaseFails env = true) :
    (negotiate env st).1.status = "init error (webrtc)" ∧
    Ev.logError "viewer" "webrtc/start error" ∈ (negotiate env st).2 ∧
    (negotiate env st).1.placeholder = "" ∧
    (negotiate env st).1.SESSION_ID = st.SESSION_ID ∧
    (negotiate env st).1.SESSION_TOKEN = st.SESSION_TOKEN ∧
    (negotiate env st).1.pc = some st.nextPC ∧
    st.nextPC ∈ (negotiate env st).1.openPCs := by
  unfold webrtcPhaseFails at hwf
  cases hpc : st.pc <;>
    cases hr : env.setRemoteOk <;> cases ha : env.createAnswerOk <;>
    cases hl : env.setLocalOk <;> cases hh : env.heygenResult <;>
    simp_all [negotiate]

theorem negotiate_trace (env : StartEnv) (st : St) (i : Nat)
    (hpc : st.pc = some i) :
    ∃ rest, (negotiate env st).2 =
      Ev.closePC i :: Ev.newPC st.nextPC :: rest := by
  cases hr : env.setRemoteOk <;> cases ha : env.createAnswerOk <;>
    cases hl : env.setLocalOk <;> cases hh : env.heygenResult <;>
    (simp_all [negotiate]; try (split <;> simp))

theorem negotiate_pc (env : StartEnv) (st : St) (h : pcInv st) :
    (negotiate env st).1.pc = some st.nextPC ∧
    (negotiate env st).1.openPCs = [st.nextPC] := by
  unfold pcInv at h
  cases hpc : st.pc <;> rw [hpc] at h <;>
    cases hr : env.setRemoteOk <;> cases ha : env.createAnswerOk <;>
    cases hl : env.setLocalOk <;> cases hh : env.heygenResult <;>
    simp_all [negotiate] <;>
    (split <;> simp)

theorem startSession_pcInv (env : StartEnv) (st : St) (h : pcInv st) :
    pcInv (startSession env st).1 := by
  cases hres : env.startResult with
  | none => simpa [pcInv, startSession, hres] using h
  | some j =>
    by_cases hc : startGuard j = true
    · simpa [pcInv, startSession, hres, hc] using h
    · have hc2 := eq_false_of_ne_true hc
      simp only [startSession, hres, hc2, Bool.false_eq_true, if_false]
      have h2 := negotiate_pc env
        { st with placeholder := "none", status := "requesting viewer params…"
                  avatarName := if truthy j.avatar_name then j.avatar_name.getD "" else "—"
                  SESSION_ID := j.session_id, SESSION_TOKEN := j.session_token
                  OFFER_SDP := j.offer_sdp }
        (by simpa [pcInv] using h)
      simp [pcInv, h2.1, h2.2]

theorem stopSession_pcInv (env : StopEnv) (st : St) (h : pcInv st) :
    pcInv (stopSession env st).1 := by
  unfold pcInv at h ⊢
  cases hpc : st.pc <;> rw [hpc] at h <;> simp_all [stopSession]

theorem pcInv_of_eq {st2 st : St} (h1 : st2.pc = st.pc)
    (h2 : st2.openPCs = st.openPCs) (h : pcInv st) : pcInv st2 := by
  unfold pcInv at h ⊢
  rw [h1, h2]
  exact h

theorem sendHandler_pc (env : RespEnv) (st : St) :
    (sendHandler env st).1.pc = st.pc ∧
    (sendHandler env st).1.openPCs = st.openPCs := by
  unfold sendHandler
  dsimp only
  repeat' split
  all_goals exact ⟨rfl, rfl⟩

theorem gptHandler_pc (env : RespEnv) (st : St) :
    (gptHandler env st).1.pc = st.pc ∧
    (gptHandler env st).1.openPCs = st.openPCs := by
  unfold gptHandler
  dsimp only
  repeat' split
  all_goals exact ⟨rfl, rfl⟩

theorem explainPerfume_pc (env : RespEnv) (nm : String) (st : St) :
    (explainPerfume env nm st).1.pc = st.pc ∧
    (explainPerfume env nm st).1.openPCs = st.openPCs := by
  unfold explainPerfume
  dsimp only
  repeat' split
  all_goals exact ⟨rfl, rfl⟩

theorem runAct_pcInv (a : Act) (st : St) (h : pcInv st) :
    pcInv (runAct a st).1 := by
  cases a with
  | start env => exact startSession_pcInv env st h
  | stop env => exact stopSession_pcInv env st h
  | send env =>
    exact pcInv_of_eq (sendHandler_pc env st).1 (sendHandler_pc env st).2 h
  | gpt env =>
    exact pcInv_of_eq (gptHandler_pc env st).1 (gptHandler_pc env st).2 h
  | explain env nm =>
    exact pcInv_of_eq (explainPerfume_pc env nm st).1
      (explainPerfume_pc env nm st).2 h

theorem runActs_pcInv (acts : List Act) (st : St) (h : pcInv st) :
    pcInv (runActs acts st) := by
  induction acts generalizing st with
  | nil => exact h
  | cons a as ih => exact ih _ (runAct_pcInv a st h)

theorem startSession_trace (env : StartEnv) (st : St) (i : Nat)
    (hpc : st.pc = some i) (hs : startPhaseFails env = false) :
    ∃ post, (startSession env st).2 =
      [Ev.logInfo "viewer" "Start button pressed", Ev.fetchStartSession,
       Ev.logInfo "viewer" "/api/start-session response"] ++
      Ev.closePC i :: Ev.newPC st.nextPC :: post := by
  cases hres : env.startResult with
  | none => simp [startPhaseFails, hres] at hs
  | some j =>
    have hg : startGuard j = false := by
      simpa [startPhaseFails, hres] using hs
    have hs2 : ¬(startGuard j = true) := by rw [hg]; simp
    obtain ⟨rest, hr⟩ := negotiate_trace env
      { st with placeholder := "none", status := "requesting viewer params…"
                avatarName := if truthy j.avatar_name then j.avatar_name.getD "" else "—"
                SESSION_ID := j.session_id, SESSION_TOKEN := j.session_token
                OFFER_SDP := j.offer_sdp }
      i hpc
    exact ⟨rest, by simp [startSession, hres, hs2, hr]⟩

theorem pcInv_length {st : St} (h : pcInv st) : st.openPCs.length ≤ 1 := by
  unfold pcInv at h
  split at h <;> simp [h]

/-- C3 (confirmed): when the `/api/start-session` response has HTTP status
`>= 400` or lacks a truthy `offer_sdp`, `startSession` aborts before
assigning any session state: the session variables and the peer connection
are exactly what they were before (nothing is set from that response), the
pre-start placeholder affordance is restored, and the status shows the
start error. -/
theorem start_abort_leaves_no_session (env : StartEnv) (st : St)
    (j : StartResp) (hres : env.startResult = some j)
    (hfail : 400 ≤ j.http ∨ truthy j.offer_sdp = false) :
    (startSession env st).1.SESSION_ID = st.SESSION_ID ∧
    (startSession env st).1.SESSION_TOKEN = st.SESSION_TOKEN ∧
    (startSession env st).1.OFFER_SDP = st.OFFER_SDP ∧
    (startSession env st).1.pc = st.pc ∧
    (startSession env st).1.openPCs = st.openPCs ∧
    (startSession env st).1.placeholder = "" ∧
    (startSession env st).1.status = "init error (start-session)" := by
  have hg : startGuard j = true := by
    rcases hfail with h | h
    · simp [startGuard, h]
    · simp [startGuard, h]
  simp [startSession, hres, hg]

/-- Witness: the abort theorem applied to the concrete run `c3env`
(HTTP 500 with an offer present) from the initial state. -/
theorem start_abort_leaves_no_session_witness :
    (startSession c3env St.init).1.SESSION_ID = none ∧
    (startSession c3env St.init).1.pc = none ∧
    (startSession c3env St.init).1.status = "init error (start-session)" := by
  have h := start_abort_leaves_no_session c3env St.init
    { http := 500, offer_sdp := some "offer", session_id := some "s2",
      session_token := some "t2", avatar_name := none, rtc_config := none }
    rfl (Or.inl (by decide))
  exact ⟨h.1, h.2.2.2.1, h.2.2.2.2.2.2⟩

/-- C1 counterexample: with `c1env` (`/api/heygen/start` answers 500) the
start/negotiation sequence fails, the error status is shown, yet the final
state still holds the session identifiers assigned from the response and
an open peer connection — the controller is not returned to idle, so the
claim "no partial session is left active" is false on the code. -/
theorem start_failure_not_idle_counterexample :
    (startSession c1env St.init).1.status = "init error (webrtc)" ∧
    (startSession c1env St.init).1.SESSION_ID = some "s1" ∧
    (startSession c1env St.init).1.SESSION_TOKEN = some "t1" ∧
    (startSession c1env St.init).1.pc = some 0 ∧
    (startSession c1env St.init).1.openPCs = [0] := by decide

/-- C1 amended: every failure at any step of the start/negotiation
sequence logs the error (an ERROR log line is emitted), sets a visible
error status (`"init error (start-session)"` or `"init error (webrtc)"`)
and restores the placeholder; but the controller is not returned to idle:
whenever the failure happens after a successful start-session response,
the session identifiers remain assigned from that response and the newly
created peer connection remains open. -/
theorem start_failure_behaviour (env : StartEnv) (st : St)
    (hfail : startPhaseFails env = true ∨ webrtcPhaseFails env = true) :
    ((startSession env st).1.status = "init error (start-session)" ∨
     (startSession env st).1.status = "init error (webrtc)") ∧
    (∃ a m, Ev.logError a m ∈ (startSession env st).2) ∧
    (startSession env st).1.placeholder = "" ∧
    (startPhaseFails env = false →
      ∃ j, env.startResult = some j ∧
        (startSession env st).1.SESSION_ID = j.session_id ∧
        (startSession env st).1.SESSION_TOKEN = j.session_token ∧
        (startSession env st).1.pc = some st.nextPC ∧
        st.nextPC ∈ (startSession env st).1.openPCs) := by
  cases hres : env.startResult with
  | none =>
    refine ⟨Or.inl ?_, ⟨"viewer", "start-session failed", ?_⟩, ?_, ?_⟩ <;>
      simp [startSession, hres, startPhaseFails]
  | some j =>
    by_cases hg : startGuard j = true
    · refine ⟨Or.inl ?_, ⟨"viewer", "start-session failed", ?_⟩, ?_, ?_⟩ <;>
        simp [startSession, hres, hg, startPhaseFails]
    · have hg2 : startGuard j = false := eq_false_of_ne_true hg
      have hw : webrtcPhaseFails env = true := by
        rcases hfail with h | h
        · rw [startPhaseFails] at h
          rw [hres] at h
          simp [hg2] at h
        · exact h
      obtain ⟨h1, h2, h3, h4, h5, h6, h7⟩ := negotiate_fail env
        { st with placeholder := "none", status := "requesting viewer params…"
                  avatarName := if truthy j.avatar_name then j.avatar_name.getD "" else "—"
                  SESSION_ID := j.session_id, SESSION_TOKEN := j.session_token
                  OFFER_SDP := j.offer_sdp } hw
      refine ⟨Or.inr ?_, ⟨"viewer", "webrtc/start error", ?_⟩, ?_,
        fun _ => ⟨j, rfl, ?_, ?_, ?_, ?_⟩⟩ <;>
        simp [startSession, hres, hg2, h1, h2, h3, h4, h5, h6, h7]

/-- Witness: the amended C1 theorem applied to the concrete failing run
`c1env` from the initial state. -/
theorem start_failure_behaviour_witness :
    ((startSession c1env St.init).1.status = "init error (start-session)" ∨
     (startSession c1env St.init).1.status = "init error (webrtc)") ∧
    (∃ a m, Ev.logError a m ∈ (startSession c1env St.init).2) ∧
    (∃ j, c1env.startResult = some j ∧
      (startSession c1env St.init).1.SESSION_ID = j.session_id ∧
      (startSession c1env St.init).1.SESSION_TOKEN = j.session_token ∧
      (startSession c1env St.init).1.pc = some St.init.nextPC ∧
      St.init.nextPC ∈ (startSession c1env St.init).1.openPCs) := by
  have h := start_failure_behaviour c1env St.init (Or.inr (by decide))
  exact ⟨h.1, h.2.1, h.2.2.2 (by decide)⟩

/-- C2 counterexample: a `stopSession` run on a state holding session
`s1`/`t1` closes the connection but leaves both identifiers set — the
claim that the session id and token become unset afterwards is false on
the code. -/
theorem stop_keeps_identifiers_counterexample :
    (stopSession { stopResult := some 200 } c2st).1.SESSION_ID = some "s1" ∧
    (stopSession { stopResult := some 200 } c2st).1.SESSION_TOKEN = some "t1" ∧
    (stopSession { stopResult := some 200 } c2st).1.pc = none := by decide

/-- C2 amended: every `stopSession` run notifies the backend (a
`/api/stop-session` request is always issued; when that fetch throws the
failure is only logged, never propagated), closes the peer connection
(`pc` is null afterwards and a `closePC` event is emitted for the held
connection) and sets the `"stopped."` status; the session identifiers are
NOT cleared — they are left exactly as they were. -/
theorem stopSession_closes_connection (env : StopEnv) (st : St) :
    (stopSession env st).1.pc = none ∧
    (stopSession env st).1.status = "stopped." ∧
    Ev.fetchStopSession ∈ (stopSession env st).2 ∧
    (env.stopResult = none →
      Ev.logError "viewer" "stop-session error" ∈ (stopSession env st).2) ∧
    (∀ i, st.pc = some i → Ev.closePC i ∈ (stopSession env st).2) ∧
    (stopSession env st).1.SESSION_ID = st.SESSION_ID ∧
    (stopSession env st).1.SESSION_TOKEN = st.SESSION_TOKEN := by
  cases hpc : st.pc <;> cases hres : env.stopResult <;>
    simp [stopSession, hpc, hres]

/-- Witness: the amended C2 theorem applied to a concrete run (the stop
notification throws) on a state holding connection `0`. -/
theorem stopSession_closes_connection_witness :
    (stopSession { stopResult := none } c2st).1.pc = none ∧
    Ev.closePC 0 ∈ (stopSession { stopResult := none } c2st).2 ∧
    Ev.logError "viewer" "stop-session error" ∈
      (stopSession { stopResult := none } c2st).2 :=
  ⟨(stopSession_closes_connection { stopResult := none } c2st).1,
   (stopSession_closes_connection { stopResult := none } c2st).2.2.2.2.1 0 rfl,
   (stopSession_closes_connection { stopResult := none } c2st).2.2.2.1 rfl⟩

/-- C4 (confirmed): over every sequence of user actions from the initial
state at most one peer connection is open at a time, and every start run
that passes the start-session guard emits `closePC` for the previously
held connection immediately before `newPC` for the new one. -/
theorem single_connection_invariant :
    (∀ acts : List Act, (runActs acts St.init).openPCs.length ≤ 1) ∧
    (∀ env st i, st.pc = some i → startPhaseFails env = false →
      ∃ post, (startSession env st).2 =
        [Ev.logInfo "viewer" "Start button pressed", Ev.fetchStartSession,
         Ev.logInfo "viewer" "/api/start-session response"] ++
        Ev.closePC i :: Ev.newPC st.nextPC :: post) := by
  constructor
  · intro acts
    exact pcInv_length (runActs_pcInv acts St.init (by simp [pcInv, St.init]))
  · intro env st i hpc hs
    exact startSession_trace env st i hpc hs

/-- Witness: the invariant on a concrete two-action run, and the
close-before-new trace fact on the concrete state `c4st` (holding
connection `5`) under the fully successful run `c4env`. -/
theorem single_connection_invariant_witness :
    (runActs [Act.start c4env, Act.stop { stopResult := some 200 }]
      St.init).openPCs.length ≤ 1 ∧
    ∃ post, (startSession c4env c4st).2 =
      [Ev.logInfo "viewer" "Start button pressed", Ev.fetchStartSession,
       Ev.logInfo "viewer" "/api/start-session response"] ++
      Ev.closePC 5 :: Ev.newPC 6 :: post :=
  ⟨single_connection_invariant.1 _,
   single_connection_invariant.2 c4env c4st 5 rfl (by decide)⟩

/-- C5 (confirmed): both `onstop` variants always release the microphone
(the captured stream tracks are stopped), null `mediaRecorder` and reset
the mic button, on the success path and on every failure path alike — the
cleanup is the `finally` block of the handler. -/
theorem onstop_always_releases_mic (envV envT : RespEnv) (stV stT : MicState) :
    ((onstopVoicechat envV stV).1.tracksStopped = true ∧
     (onstopVoicechat envV stV).1.mediaRecorder = false ∧
     (onstopVoicechat envV stV).1.micBtnRecording = false ∧
     (onstopVoicechat envV stV).1.micBtnLabel = "🎙️ Start Recording") ∧
    ((onstopTranscribe envT stT).1.tracksStopped = true ∧
     (onstopTranscribe envT stT).1.mediaRecorder = false ∧
     (onstopTranscribe envT stT).1.micBtnRecording = false ∧
     (onstopTranscribe envT stT).1.micBtnLabel = "🎙️ Rec") := by
  constructor
  · unfold onstopVoicechat
    dsimp only
    exact ⟨rfl, rfl, rfl, rfl⟩
  · unfold onstopTranscribe
    dsimp only
    exact ⟨rfl, rfl, rfl, rfl⟩

/-- C6 (confirmed): the direct-send handler issues no network request at
all when the trimmed edit text is empty or no session is active, it
issues a send-task request carrying exactly the trimmed edit text when
both hold, and every send-task it ever issues carries that trimmed
text. -/
theorem send_requires_session_and_text (env : RespEnv) (st : St) :
    ((jsTrim st.editBox = "" ∨
      (truthy st.SESSION_ID && truthy st.SESSION_TOKEN) = false) →
      (sendHandler env st).2 = []) ∧
    (jsTrim st.editBox ≠ "" →
      (truthy st.SESSION_ID && truthy st.SESSION_TOKEN) = true →
      Ev.fetchSendTask (optStr st.SESSION_ID) (optStr st.SESSION_TOKEN)
        (jsTrim st.editBox) ∈ (sendHandler env st).2) ∧
    (∀ s t x, Ev.fetchSendTask s t x ∈ (sendHandler env st).2 →
      jsTrim st.editBox ≠ "" ∧
      (truthy st.SESSION_ID && truthy st.SESSION_TOKEN) = true ∧
      x = jsTrim st.editBox) := by
  by_cases he : jsTrim st.editBox = ""
  · simp [sendHandler, he]
  · by_cases hs : (truthy st.SESSION_ID && truthy st.SESSION_TOKEN) = true
    · cases hr : env.result <;>
        simp [sendHandler, he, hs, hr]
    · have hs2 := eq_false_of_ne_true hs
      simp [sendHandler, he, hs2]

/-- Witness: the direct-send theorem at the concrete state `c6st`
(active session, edit box `" hi "`): the send-task request carries the
trimmed text. -/
theorem send_requires_session_and_text_witness :
    Ev.fetchSendTask "s1" "t1" "hi" ∈
      (sendHandler { result := some (200, none) } c6st).2 :=
  (send_requires_session_and_text { result := some (200, none) } c6st).2.1
    (by decide) (by decide)

/-- C7 (confirmed): the chat-passthrough handler submits the trimmed edit
text, or the default greeting `"Hello"` when that text is empty; when the
backend replies successfully with a non-empty (trimmed) reply, the reply
becomes the edit-box content, the status returns to `"Ready."`, and — if
a session is active — a send-task request whose text equals the reply is
issued. -/
theorem gpt_passthrough (env : RespEnv) (st : St) (http : Nat)
    (jresp : Option String) (hres : env.result = some (http, jresp))
    (hok : http < 400) :
    Ev.fetchChat (if jsTrim st.editBox = "" then "Hello" else jsTrim st.editBox)
      ∈ (gptHandler env st).2 ∧
    (jsTrim (jresp.getD "") ≠ "" →
      (gptHandler env st).1.editBox = jsTrim (jresp.getD "") ∧
      (gptHandler env st).1.status = "Ready." ∧
      ((truthy st.SESSION_ID && truthy st.SESSION_TOKEN) = true →
        Ev.fetchSendTask (optStr st.SESSION_ID) (optStr st.SESSION_TOKEN)
          (jsTrim (jresp.getD "")) ∈ (gptHandler env st).2)) := by
  have hok2 : ¬(400 ≤ http) := by omega
  by_cases hrep : jsTrim (jresp.getD "") = ""
  · simp [gptHandler, hres, hok2, hrep]
  · by_cases hsess : (truthy st.SESSION_ID && truthy st.SESSION_TOKEN) = true
    · simp [gptHandler, hres, hok2, hrep, hsess]
    · have h2 := eq_false_of_ne_true hsess
      simp [gptHandler, hres, hok2, hrep, h2]

/-- Witness: the passthrough theorem at the concrete state `c7st` (edit
box `"Hello"`, active session `s1`/`t1`) with backend reply
`"Hi there"`. -/
theorem gpt_passthrough_witness :
    Ev.fetchChat "Hello" ∈
      (gptHandler { result := some (200, some "Hi there") } c7st).2 ∧
    (gptHandler { result := some (200, some "Hi there") } c7st).1.editBox =
      "Hi there" ∧
    Ev.fetchSendTask "s1" "t1" "Hi there" ∈
      (gptHandler { result := some (200, some "Hi there") } c7st).2 := by
  have h := gpt_passthrough { result := some (200, some "Hi there") } c7st
    200 (some "Hi there") rfl (by decide)
  have h2 := h.2 (by decide)
  exact ⟨h.1, h2.1, h2.2.2 (by decide)⟩

/-- C8 counterexample: a completed upload whose reply carries the empty
string in its `text` field is an empty reply, yet the handler does not
show the "no text" status: it populates the edit box with the empty
string and shows `"Ready."`. -/
theorem onstop_empty_text_counterexample :
    (onstopVoicechat { result := some (200, some "") } c8mic).1.status =
      "Ready." ∧
    (onstopVoicechat { result := some (200, some "") } c8mic).1.status ≠
      "Voicechat returned no text." ∧
    (onstopVoicechat { result := some (200, some "") } c8mic).1.editBox =
      "" := by decide

/-- C8 amended, per source variant.  Voicechat variant
(`src/frontend/perfume.js`): when the upload completes, a reply whose
`text` field is a string (even the empty string) populates the edit box
with its trimmed value and sets the status `"Ready."`, and the
`"Voicechat returned no text."` status is shown exactly when the `text`
field is missing or not a string, the edit box then unchanged.
Transcribe variant (`src/unnamed/part_000`): a completed upload always
ends with status `"Ready."`; the edit box is populated — verbatim, not
trimmed — only when the `text` field is a truthy (non-empty) string, and
an empty or missing `text` leaves the edit box unchanged with no
"no text" status at all. -/
theorem onstop_reply_handling (envV envT : RespEnv) (stV stT : MicState)
    (httpV httpT : Nat) (jtV jtT : Option String)
    (hresV : envV.result = some (httpV, jtV))
    (hresT : envT.result = some (httpT, jtT)) :
    (∀ t, jtV = some t →
      (onstopVoicechat envV stV).1.editBox = jsTrim t ∧
      (onstopVoicechat envV stV).1.status = "Ready.") ∧
    (jtV = none →
      (onstopVoicechat envV stV).1.status = "Voicechat returned no text." ∧
      (onstopVoicechat envV stV).1.editBox = stV.editBox) ∧
    (onstopTranscribe envT stT).1.status = "Ready." ∧
    (∀ t, jtT = some t → t ≠ "" →
      (onstopTranscribe envT stT).1.editBox = t) ∧
    ((jtT = none ∨ jtT = some "") →
      (onstopTranscribe envT stT).1.editBox = stT.editBox) := by
  refine ⟨?_, ?_, ?_, ?_, ?_⟩
  · intro t ht
    subst ht
    simp [onstopVoicechat, hresV]
  · intro ht
    subst ht
    simp [onstopVoicechat, hresV]
  · simp [onstopTranscribe, hresT]
  · intro t ht hne
    subst ht
    simp [onstopTranscribe, hresT, truthy, hne]
  · intro ht
    rcases ht with ht | ht <;> subst ht <;>
      simp [onstopTranscribe, hresT, truthy]

/-- Witness: the amended C8 theorem on the concrete reply `" hello "` for
both variants — the voicechat handler stores the trimmed text, the
transcribe handler stores it verbatim, both end `"Ready."`. -/
theorem onstop_reply_handling_witness :
    (onstopVoicechat { result := some (200, some " hello ") } c8mic).1.editBox
      = "hello" ∧
    (onstopVoicechat { result := some (200, some " hello ") } c8mic).1.status
      = "Ready." ∧
    (onstopTranscribe { result := some (200, some " hello ") } c8mic).1.status
      = "Ready." ∧
    (onstopTranscribe { result := some (200, some " hello ") } c8mic).1.editBox
      = " hello " := by
  have h := onstop_reply_handling { result := some (200, some " hello ") }
    { result := some (200, some " hello ") } c8mic c8mic 200 200
    (some " hello ") (some " hello ") rfl rfl
  have hv := h.1 " hello " rfl
  exact ⟨hv.1, hv.2, h.2.2.1, h.2.2.2.1 " hello " rfl (by decide)⟩

theorem waitFrom_le (complete : Nat → Bool) (t : Nat) :
    waitFrom complete t ≤ 1500 := by
  induction t using waitFrom.induct complete with
  | case1 t h => rw [waitFrom]; simp [h]
  | case2 t h hc => rw [waitFrom]; simp [h, hc]; omega
  | case3 t h hc ih => rw [waitFrom]; simp [h, hc]; exact ih

theorem waitFrom_min (complete : Nat → Bool) (s : Nat)
    (hs : complete s = true) (t : Nat) :
    t ≤ s → waitFrom complete t ≤ min s 1500 := by
  induction t using waitFrom.induct complete with
  | case1 t h =>
    intro hts
    rw [waitFrom]
    simp [h]
    exact le_trans h hts
  | case2 t h hc =>
    intro hts
    rw [waitFrom, if_neg h, if_pos hc]
    exact le_min hts (by omega)
  | case3 t h hc ih =>
    intro hts
    rw [waitFrom, if_neg h, if_neg hc]
    have hne : t ≠ s := by
      intro he
      rw [he, hs] at hc
      exact hc rfl
    exact ih (by omega)

theorem waitFrom_not_before (complete : Nat → Bool) (t : Nat) :
    ∀ s, t ≤ s → s < waitFrom complete t → complete s = false := by
  induction t using waitFrom.induct complete with
  | case1 t h =>
    intro s hts hlt
    rw [waitFrom] at hlt
    simp [h] at hlt
    exact absurd (le_trans h hts) (by omega)
  | case2 t h hc =>
    intro s hts hlt
    rw [waitFrom] at hlt
    simp [h, hc] at hlt
    exact absurd hts (by omega)
  | case3 t h hc ih =>
    intro s hts hlt
    rw [waitFrom] at hlt
    simp [h, hc] at hlt
    rcases Nat.eq_or_lt_of_le hts with he | hlt2
    · rw [← he]
      exact Bool.eq_false_iff.mpr hc
    · exact ih s hlt2 hlt

/-- C9 (confirmed): the ICE-gathering wait resolves after at most the
fixed 1500 timeout; it resolves no later than the gathering-completion
instant (capped by the timeout) — whichever of the completion event and
the timeout occurs first — and it never resolves while the gathering is
still incomplete and the timeout has not fired: in particular it never
blocks indefinitely. -/
theorem ice_wait_first_of (complete : Nat → Bool) :
    iceResolveTime complete ≤ 1500 ∧
    (∀ t, complete t = true → iceResolveTime complete ≤ min t 1500) ∧
    (∀ t, t < iceResolveTime complete → complete t = false) :=
  ⟨waitFrom_le complete 0,
   fun t ht => waitFrom_min complete t ht 0 (Nat.zero_le t),
   fun t hlt => waitFrom_not_before complete 0 t (Nat.zero_le t) hlt⟩

/-- Witness: a run whose gathering completes at instant 2 resolves by
instant 2; a run whose gathering never completes still resolves by the
1500 bound. -/
theorem ice_wait_first_of_witness :
    iceResolveTime (fun t => decide (2 ≤ t)) ≤ min 2 1500 ∧
    iceResolveTime (fun _ => false) ≤ 1500 :=
  ⟨(ice_wait_first_of (fun t => decide (2 ≤ t))).2.1 2 (by decide),
   (ice_wait_first_of (fun _ => false)).1⟩

/-- C10 (confirmed): a chat-passthrough or tile-explain completion whose
successful reply trims to empty changes only the status indicator: the
final state equals the pre-completion state with only `status` replaced
(for the tile flow the pre-completion edit box holds the tile name written
at trigger time), and no send-task request for the reply is issued — the
only send-task a tile run may have issued carries the tile name sent at
trigger time, and a chat run issues none at all. -/
theorem empty_reply_changes_only_status (envG envE : RespEnv) (stG stE : St)
    (name : String) (httpG httpE : Nat) (jG jE : Option String)
    (hG : envG.result = some (httpG, jG)) (hGok : httpG < 400)
    (hGe : jsTrim (jG.getD "") = "")
    (hE : envE.result = some (httpE, jE)) (hEok : httpE < 400)
    (hEe : jsTrim (jE.getD "") = "") (hname : jsTrim name ≠ "") :
    (gptHandler envG stG).1 = { stG with status := "Ready." } ∧
    (∀ s t x, Ev.fetchSendTask s t x ∉ (gptHandler envG stG).2) ∧
    (explainPerfume envE name stE).1 =
      { stE with editBox := jsTrim name, status := "Ready." } ∧
    (∀ s t x, Ev.fetchSendTask s t x ∈ (explainPerfume envE name stE).2 →
      x = jsTrim name) := by
  have hG2 : ¬(400 ≤ httpG) := by omega
  have hE2 : ¬(400 ≤ httpE) := by omega
  refine ⟨?_, ?_, ?_, ?_⟩
  · simp [gptHandler, hG, hG2, hGe]
  · simp [gptHandler, hG, hG2, hGe]
  · by_cases hsess : (truthy stE.SESSION_ID && truthy stE.SESSION_TOKEN) = true
    · simp [explainPerfume, hE, hE2, hEe, hname, hsess]
    · have h2 := eq_false_of_ne_true hsess
      simp [explainPerfume, hE, hE2, hEe, hname, h2]
  · by_cases hsess : (truthy stE.SESSION_ID && truthy stE.SESSION_TOKEN) = true
    · simp [explainPerfume, hE, hE2, hEe, hname, hsess]
    · have h2 := eq_false_of_ne_true hsess
      simp [explainPerfume, hE, hE2, hEe, hname, h2]

/-- Witness: the frame theorem on the concrete state `c10st` (active
session, edit box `"previous text"`), with a whitespace-only chat reply
and an empty tile-explain reply for tile `"Rose"`. -/
theorem empty_reply_changes_only_status_witness :
    (gptHandler { result := some (200, some "  ") } c10st).1 =
      { c10st with status := "Ready." } ∧
    (explainPerfume { result := some (200, some "") } "Rose" c10st).1 =
      { c10st with editBox := "Rose", status := "Ready." } := by
  have h := empty_reply_changes_only_status
    { result := some (200, some "  ") } { result := some (200, some "") }
    c10st c10st "Rose" 200 200 (some "  ") (some "")
    rfl (by decide) (by decide) rfl (by decide) (by decide) (by decide)
  exact ⟨h.1, h.2.2.1⟩

end Perfume
